import Mathlib

/-!
Verification development for the Device Gateway Service (src/index.js):
an HTTP server with routes POST /register-device, POST /upload-data
(protected by the authenticateDevice middleware), GET /list-devices and
GET /health, backed by a Supabase table devicesTable of rows
with columns device_id and token.

Shallow embedding conventions:
* the datastore is a list of device records, in insertion order;
* a Supabase single-row query (.select.eq...eq.single) returns data plus
  an optional error; with a healthy datastore it yields the row when the
  filter matches exactly one row, and the PostgREST error PGRST116
  (JSON object requested, multiple or no rows returned) otherwise;
* infrastructure failures are modelled by passing an arbitrary query
  outcome (or insert error) to the handler, so theorems quantify over
  every possible datastore answer;
* a JavaScript header value is an Option String: none when the header is
  absent, and the falsiness test of the source (!device, !token,
  !deviceId) holds for none and for the empty string;
* crypto.randomBytes(16) is modelled as a list of 16 natural numbers
  below 256, and toString("hex") as lowercase hex encoding.
-/

/-- A row of the devicesTable: columns device_id and token. -/
structure DeviceRecord where
  device_id : String
  token : String
deriving DecidableEq

/-- The state of the external datastore: all rows of devicesTable. -/
abbrev Datastore := List DeviceRecord

/-- An error object returned by the query client; only its code field is
inspected by the source (fetchError.code !== "PGRST116"). -/
structure QueryError where
  code : String
deriving DecidableEq

/-- Outcome of a single-row query: the data and error fields of the
destructured Supabase response. -/
structure SingleQueryOutcome where
  data : Option DeviceRecord
  error : Option QueryError
deriving DecidableEq

/-- JavaScript falsiness of an optional string value: undefined (absent)
and the empty string are falsy; every other string is truthy. -/
def isFalsyStr : Option String → Bool
  | none => true
  | some s => s == ""

/-- The hex digit for a value below 16, lowercase, as produced by
Buffer.toString("hex"): 0-9 then a-f. -/
def hexDigit (n : Nat) : Char :=
  if n < 10 then Char.ofNat (48 + n) else Char.ofNat (87 + n)

/-- Hex encoding of one byte: two lowercase hex digits, high nibble first. -/
def byteToHex (b : Nat) : List Char :=
  [hexDigit (b / 16), hexDigit (b % 16)]

/-- generateToken: crypto.randomBytes(16).toString("hex"), with the
random bytes passed explicitly. -/
def generateToken (bytes : List Nat) : String :=
  String.mk (List.flatten (bytes.map byteToHex))

/-- A character is a lowercase hexadecimal digit: 0-9 or a-f. -/
def isLowerHexChar (c : Char) : Bool :=
  (48 ≤ c.toNat && c.toNat ≤ 57) || (97 ≤ c.toNat && c.toNat ≤ 102)

/-- Supabase .single() semantics over the rows selected by the filter:
exactly one row yields that row and no error; zero rows or several rows
yield no data and the PostgREST error PGRST116. -/
def singleOf (rows : List DeviceRecord) : SingleQueryOutcome :=
  match rows with
  | [r] => ⟨some r, none⟩
  | _ => ⟨none, some ⟨"PGRST116"⟩⟩

/-- The row filter of the authenticateDevice query:
.eq("device_id", device).eq("token", token) — equality on both columns. -/
def matchesBoth (d t : String) (r : DeviceRecord) : Bool :=
  r.device_id == d && r.token == t

/-- The authenticateDevice lookup against a healthy datastore:
select * from devicesTable where device_id = d and token = t, single row. -/
def authQuery (db : Datastore) (d t : String) : SingleQueryOutcome :=
  singleOf (List.filter (matchesBoth d t) db)

/-- The register-device existence check against a healthy datastore:
select * from devicesTable where device_id = d, single row. -/
def registerFetchQuery (db : Datastore) (d : String) : SingleQueryOutcome :=
  singleOf (List.filter (fun r => r.device_id == d) db)

/-- The guard on line 42 of the source:
fetchError && fetchError.code !== "PGRST116". -/
def fetchBlocks (q : SingleQueryOutcome) : Bool :=
  match q.error with
  | some e => e.code != "PGRST116"
  | none => false

/-- Result of the POST /register-device handler: HTTP status, the token
field of the 201 response body (none on failure), and the datastore
contents after the handler ran. -/
structure RegisterResult where
  status : Nat
  token : Option String
  db : Datastore
deriving DecidableEq

/-- The POST /register-device handler. deviceId is the (optional) field
of the request body; fetch is the outcome of the existence-check query;
tok is the value generateToken would produce; insertError is the error
field of the insert call (none when the insert succeeds, in which case
the new row is appended to the table). -/
def registerDevice (db : Datastore) (deviceId : Option String)
    (fetch : SingleQueryOutcome) (tok : String)
    (insertError : Option QueryError) : RegisterResult :=
  if isFalsyStr deviceId then ⟨400, none, db⟩
  else if fetchBlocks fetch then ⟨500, none, db⟩
  else if (fetch.data).isSome then ⟨400, none, db⟩
  else
    match insertError with
    | some _ => ⟨500, none, db⟩
    | none => ⟨201, some tok, db ++ [⟨deviceId.getD "", tok⟩]⟩

/-- The authenticateDevice middleware. device and token are the request
headers; q is the outcome of the two-column lookup. Returns some status
when the middleware responds with an error, none when it calls next()
and the protected handler runs. -/
def authenticateDevice (device token : Option String)
    (q : SingleQueryOutcome) : Option Nat :=
  if isFalsyStr device || isFalsyStr token then some 401
  else if q.error.isSome || q.data.isNone then some 403
  else none

/-- A JSON value of the request body, as far as the source inspects it:
the handlers only test falsiness (!data), so objects and arrays (always
truthy) need no structure. Numbers are modelled as integers. -/
inductive JsValue where
  | undefined : JsValue
  | null : JsValue
  | boolean : Bool → JsValue
  | number : Int → JsValue
  | str : String → JsValue
  | obj : JsValue
  | arr : JsValue
deriving DecidableEq

/-- JavaScript falsiness of a JSON value. -/
def JsValue.falsy : JsValue → Bool
  | .undefined => true
  | .null => true
  | .boolean b => !b
  | .number n => n == 0
  | .str s => s == ""
  | .obj => false
  | .arr => false

/-- The body of the POST /upload-data handler, reached after
authentication: 400 when the data field is falsy, else 200. -/
def uploadDataHandler (data : JsValue) : Nat :=
  if data.falsy then 400 else 200

/-- The full POST /upload-data route against a healthy datastore:
authenticateDevice runs first with the two-column lookup; on next() the
handler runs. Returns the HTTP status and the datastore contents after
the request. -/
def uploadDataRoute (db : Datastore) (device token : Option String)
    (data : JsValue) : Nat × Datastore :=
  match authenticateDevice device token
      (authQuery db (device.getD "") (token.getD "")) with
  | some s => (s, db)
  | none => (uploadDataHandler data, db)

/-- Result of GET /list-devices: HTTP status and the devices field of
the response body (none on the 500 path). -/
structure ListResult where
  status : Nat
  devices : Option (List DeviceRecord)
deriving DecidableEq

/-- The GET /list-devices handler: select * from devicesTable with no
filter. qerr is the error field of the query outcome; on success the
data is all rows, returned verbatim. -/
def listDevices (db : Datastore) (qerr : Option QueryError) : ListResult :=
  match qerr with
  | some _ => ⟨500, none⟩
  | none => ⟨200, some db⟩

/-- A sequence of POST /register-device requests run against a healthy
datastore with no injected failures: each request supplies a deviceId
and the token its generateToken call would produce. -/
def runRegistrations (db : Datastore) (reqs : List (String × String)) : Datastore :=
  match reqs with
  | [] => db
  | (d, t) :: rest =>
      runRegistrations (registerDevice db (some d) (registerFetchQuery db d) t none).db rest

/-- Datastores reachable from the empty table by register-device
requests against a healthy datastore (the existence check answers from
the current table), with tokens produced by generateToken on 16 random
bytes. Insert failures and invalid bodies are allowed; they leave the
table unchanged. -/
inductive Reachable : Datastore → Prop where
  | empty : Reachable []
  | step (db : Datastore) (deviceId : Option String) (bytes : List Nat)
      (insErr : Option QueryError) (hlen : bytes.length = 16) :
      Reachable db →
      Reachable (registerDevice db deviceId
        (registerFetchQuery db (deviceId.getD "")) (generateToken bytes) insErr).db

/-- Invariant of datastores produced by sequential registration: every
row has a nonempty identifier and a nonempty token, and no two rows
share an identifier. -/
def GoodStore (db : Datastore) : Prop :=
  (∀ r ∈ db, r.device_id ≠ "" ∧ r.token ≠ "") ∧
  List.Pairwise (fun r s => r.device_id ≠ s.device_id) db

/-- A concrete run of registration: the token issued for all-zero random
bytes, and the datastore after registering sensor-1 on an empty table. -/
def tok0 : String := generateToken (List.replicate 16 0)

def db1 : Datastore := [⟨"sensor-1", tok0⟩]

lemma isLowerHexChar_hexDigit (n : Nat) (h : n < 16) :
    isLowerHexChar (hexDigit n) = true := by
  have hall : ∀ m : Fin 16, isLowerHexChar (hexDigit m.val) = true := by decide
  exact hall ⟨n, h⟩

lemma generateToken_length (bytes : List Nat) :
    (generateToken bytes).length = 2 * bytes.length := by
  show (List.flatten (bytes.map byteToHex)).length = 2 * bytes.length
  induction bytes with
  | nil => rfl
  | cons b bs ih =>
      simp only [List.map_cons, List.flatten_cons, List.length_append, ih, byteToHex,
        List.length_cons, List.length_nil, List.length_map]
      omega

lemma generateToken_chars (bytes : List Nat) (hb : ∀ b ∈ bytes, b < 256) :
    ∀ c ∈ (generateToken bytes).data, isLowerHexChar c = true := by
  intro c hc
  have hc2 : c ∈ List.flatten (bytes.map byteToHex) := hc
  rw [List.mem_flatten] at hc2
  obtain ⟨l, hl, hcl⟩ := hc2
  rw [List.mem_map] at hl
  obtain ⟨b, hbmem, rfl⟩ := hl
  have hb256 := hb b hbmem
  have : c = hexDigit (b / 16) ∨ c = hexDigit (b % 16) := by
    simpa [byteToHex] using hcl
  rcases this with rfl | rfl
  · exact isLowerHexChar_hexDigit _ (by omega)
  · exact isLowerHexChar_hexDigit _ (Nat.mod_lt _ (by omega))

lemma generateToken_ne_empty (bytes : List Nat) (hlen : bytes.length = 16) :
    generateToken bytes ≠ "" := by
  intro h
  have := generateToken_length bytes
  rw [h, hlen] at this
  simp [String.length] at this

lemma getD_ne_empty_of_not_falsy (o : Option String) (h : isFalsyStr o = false) :
    o.getD "" ≠ "" := by
  match o with
  | none => simp [isFalsyStr] at h
  | some s => simpa [isFalsyStr] using h

lemma singleOf_data_some (rows : List DeviceRecord) (r : DeviceRecord)
    (h : (singleOf rows).data = some r) : rows = [r] := by
  match rows with
  | [] => simp [singleOf] at h
  | [a] =>
      simp only [singleOf, Option.some.injEq] at h
      rw [h]
  | a :: b :: rest => simp [singleOf] at h

lemma singleOf_data_none_of_le_one (rows : List DeviceRecord)
    (h : (singleOf rows).data = none) (hle : rows.length ≤ 1) : rows = [] := by
  match rows with
  | [] => rfl
  | [a] => simp [singleOf] at h
  | a :: b :: rest => simp at hle

lemma singleOf_error_realistic (rows : List DeviceRecord) (e : QueryError)
    (h : (singleOf rows).error = some e) : e.code = "PGRST116" := by
  match rows with
  | [] =>
      simp only [singleOf, Option.some.injEq] at h
      rw [← h]
  | [a] => simp [singleOf] at h
  | a :: b :: rest =>
      simp only [singleOf, Option.some.injEq] at h
      rw [← h]

lemma fetchBlocks_singleOf (rows : List DeviceRecord) :
    fetchBlocks (singleOf rows) = false := by
  match rows with
  | [] => rfl
  | [a] => rfl
  | a :: b :: rest => rfl

lemma length_filter_id_le_one (db : Datastore) (p : DeviceRecord → Bool) (d : String)
    (hdist : List.Pairwise (fun r s => r.device_id ≠ s.device_id) db)
    (hp : ∀ r, p r = true → r.device_id = d) :
    (List.filter p db).length ≤ 1 := by
  induction db with
  | nil => simp
  | cons a rest ih =>
      rcases List.pairwise_cons.mp hdist with ⟨ha, hrest⟩
      by_cases hpa : p a = true
      · have hnil : List.filter p rest = [] := by
          rw [List.filter_eq_nil_iff]
          intro r hr hpr
          exact ha r hr ((hp a hpa).trans (hp r hpr).symm)
        simp [List.filter_cons, hpa, hnil]
      · simp only [List.filter_cons, hpa, Bool.false_eq_true, if_false]
        exact ih hrest

lemma eq_of_mem_same_id (db : Datastore)
    (hdist : List.Pairwise (fun r s => r.device_id ≠ s.device_id) db)
    (r s : DeviceRecord) (hr : r ∈ db) (hs : s ∈ db)
    (hid : r.device_id = s.device_id) : r = s := by
  by_contra hne
  have hsymm : Symmetric (fun r s : DeviceRecord => r.device_id ≠ s.device_id) :=
    fun x y h e => h e.symm
  exact hdist.forall hsymm hr hs hne hid

lemma registerDevice_db_cases (db : Datastore) (deviceId : Option String)
    (fetch : SingleQueryOutcome) (tok : String) (insErr : Option QueryError) :
    (registerDevice db deviceId fetch tok insErr).db = db ∨
    (isFalsyStr deviceId = false ∧ fetchBlocks fetch = false ∧ fetch.data = none ∧
     insErr = none ∧
     (registerDevice db deviceId fetch tok insErr).db = db ++ [⟨deviceId.getD "", tok⟩]) := by
  unfold registerDevice
  by_cases h1 : isFalsyStr deviceId = true
  · left; simp [h1]
  · rw [Bool.not_eq_true] at h1
    by_cases h2 : fetchBlocks fetch = true
    · left; simp [h1, h2]
    · rw [Bool.not_eq_true] at h2
      by_cases h3 : fetch.data.isSome = true
      · left; simp [h1, h2, h3]
      · have h3n : fetch.data = none := Option.not_isSome_iff_eq_none.mp (by simp [h3])
        match insErr with
        | some e => left; simp [h1, h2, h3n]
        | none => right; exact ⟨h1, h2, h3n, rfl, by simp [h1, h2, h3n]⟩

lemma goodStore_register (db : Datastore) (deviceId : Option String) (bytes : List Nat)
    (insErr : Option QueryError) (hlen : bytes.length = 16) (hgood : GoodStore db) :
    GoodStore (registerDevice db deviceId (registerFetchQuery db (deviceId.getD ""))
      (generateToken bytes) insErr).db := by
  rcases registerDevice_db_cases db deviceId (registerFetchQuery db (deviceId.getD ""))
      (generateToken bytes) insErr with h | ⟨hfal, _, hdata, _, h⟩
  · rw [h]; exact hgood
  · rw [h]
    have hd_ne : deviceId.getD "" ≠ "" := getD_ne_empty_of_not_falsy deviceId hfal
    have hle : (List.filter (fun r => r.device_id == deviceId.getD "") db).length ≤ 1 :=
      length_filter_id_le_one db _ (deviceId.getD "") hgood.2
        (fun r hr => by simpa using hr)
    have hnil : List.filter (fun r => r.device_id == deviceId.getD "") db = [] :=
      singleOf_data_none_of_le_one _ hdata hle
    have hnotin : ∀ r ∈ db, r.device_id ≠ deviceId.getD "" := by
      intro r hr
      have := List.filter_eq_nil_iff.mp hnil r hr
      simpa using this
    constructor
    · intro r hr
      rcases List.mem_append.mp hr with hr2 | hr2
      · exact hgood.1 r hr2
      · rcases List.mem_singleton.mp hr2 with rfl
        exact ⟨hd_ne, generateToken_ne_empty bytes hlen⟩
    · rw [List.pairwise_append]
      refine ⟨hgood.2, List.pairwise_singleton _ _, ?_⟩
      intro a ha b hb
      rcases List.mem_singleton.mp hb with rfl
      exact hnotin a ha

lemma reachable_goodStore (db : Datastore) (h : Reachable db) : GoodStore db := by
  induction h with
  | empty => exact ⟨by simp, List.Pairwise.nil⟩
  | step db deviceId bytes insErr hlen _ ih =>
      exact goodStore_register db deviceId bytes insErr hlen ih

lemma eq_singleton_of_mem_le_one (l : List DeviceRecord) (x : DeviceRecord)
    (hx : x ∈ l) (hle : l.length ≤ 1) : l = [x] := by
  match l with
  | [] => cases hx
  | [a] => rw [List.mem_singleton.mp hx]
  | a :: b :: rest => simp at hle

lemma length_filter_both_le_one (db : Datastore)
    (hdist : List.Pairwise (fun r s => r.device_id ≠ s.device_id) db) (d t : String) :
    (List.filter (matchesBoth d t) db).length ≤ 1 :=
  length_filter_id_le_one db _ d hdist
    (fun r hr => by simpa [matchesBoth] using And.left (by simpa [matchesBoth] using hr))

lemma authQuery_found (db : Datastore) (hgood : GoodStore db) (D T : String)
    (hmem : DeviceRecord.mk D T ∈ db) :
    authQuery db D T = ⟨some ⟨D, T⟩, none⟩ := by
  have hmemf : DeviceRecord.mk D T ∈ List.filter (matchesBoth D T) db := by
    rw [List.mem_filter]
    exact ⟨hmem, by simp [matchesBoth]⟩
  have heq : List.filter (matchesBoth D T) db = [⟨D, T⟩] :=
    eq_singleton_of_mem_le_one _ _ hmemf (length_filter_both_le_one db hgood.2 D T)
  unfold authQuery
  rw [heq]
  rfl

lemma authQuery_wrong_token (db : Datastore) (hgood : GoodStore db) (D T T' : String)
    (hmem : DeviceRecord.mk D T ∈ db) (hne : T' ≠ T) :
    authQuery db D T' = ⟨none, some ⟨"PGRST116"⟩⟩ := by
  have heq : List.filter (matchesBoth D T') db = [] := by
    rw [List.filter_eq_nil_iff]
    intro r hr hmatch
    have hfields : r.device_id = D ∧ r.token = T' := by simpa [matchesBoth] using hmatch
    have : r = DeviceRecord.mk D T :=
      eq_of_mem_same_id db hgood.2 r ⟨D, T⟩ hr hmem hfields.1
    rw [this] at hfields
    exact hne hfields.2.symm
  unfold authQuery
  rw [heq]
  rfl

lemma auth_found_next (d t : String) (hd : d ≠ "") (ht : t ≠ "") (r : DeviceRecord) :
    authenticateDevice (some d) (some t) ⟨some r, none⟩ = none := by
  simp [authenticateDevice, isFalsyStr, hd, ht]

lemma auth_err_403 (d t : String) (hd : d ≠ "") (ht : t ≠ "")
    (dd : Option DeviceRecord) (e : QueryError) :
    authenticateDevice (some d) (some t) ⟨dd, some e⟩ = some 403 := by
  simp [authenticateDevice, isFalsyStr, hd, ht]

lemma reachable_db1 : Reachable db1 := by
  have h := Reachable.step [] (some "sensor-1") (List.replicate 16 0) none
    (by decide) Reachable.empty
  have e : (registerDevice [] (some "sensor-1")
      (registerFetchQuery [] (Option.getD (some "sensor-1") ""))
      (generateToken (List.replicate 16 0)) none).db = db1 := by decide
  rw [e] at h
  exact h

/-- Claim C1 (amended): in a datastore produced by registrations, the
pair returned by a successful registration authenticates (the middleware
calls next), and any other NONEMPTY token value for that identifier
fails with 403. (The empty token value instead fails with 401, because
the source treats an empty header as missing; see the counterexample.) -/
theorem register_token_authenticates (db : Datastore) (h : Reachable db)
    (D T : String) (hmem : DeviceRecord.mk D T ∈ db) :
    authenticateDevice (some D) (some T) (authQuery db D T) = none ∧
    ∀ T', T' ≠ T → T' ≠ "" →
      authenticateDevice (some D) (some T') (authQuery db D T') = some 403 := by
  have hgood := reachable_goodStore db h
  obtain ⟨hD, hT⟩ := hgood.1 _ hmem
  constructor
  · rw [authQuery_found db hgood D T hmem]
    exact auth_found_next D T hD hT _
  · intro T' hne hne2
    rw [authQuery_wrong_token db hgood D T T' hmem hne]
    exact auth_err_403 D T' hD hne2 _ _

theorem register_token_authenticates_witness :
    authenticateDevice (some "sensor-1") (some tok0) (authQuery db1 "sensor-1" tok0) = none ∧
    authenticateDevice (some "sensor-1") (some "wrong")
      (authQuery db1 "sensor-1" "wrong") = some 403 := by
  have h := register_token_authenticates db1 reachable_db1 "sensor-1" tok0
    (List.mem_singleton.mpr rfl)
  exact ⟨h.1, h.2 "wrong" (by decide) (by decide)⟩

/-- Claim C1 as stated is false: for a registered device, the token
value that is empty (a value different from the issued token) is
rejected with 401, not 403, because the middleware treats an empty
header value as missing. -/
theorem empty_token_gives_401_not_403 :
    ¬ (∀ db : Datastore, Reachable db → ∀ D T : String, DeviceRecord.mk D T ∈ db →
        ∀ T', T' ≠ T →
          authenticateDevice (some D) (some T') (authQuery db D T') = some 403) := by
  intro hclaim
  have h := hclaim db1 reachable_db1 "sensor-1" tok0 (List.mem_singleton.mpr rfl) "" (by decide)
  have he : authenticateDevice (some "sensor-1") (some "")
      (authQuery db1 "sensor-1" "") = some 401 := by decide
  rw [he] at h
  exact absurd h (by decide)

/-- Claim C10: with both headers supplied and nonempty, the middleware
proceeds exactly when the datastore holds exactly one row matching both
the device and the token; with two or more matching rows the single-row
lookup errors and the middleware answers 403 even though a row with the
correct token exists. -/
theorem auth_unique_match (db : Datastore) (d t : String) (hd : d ≠ "") (ht : t ≠ "") :
    (authenticateDevice (some d) (some t) (authQuery db d t) = none ↔
      (List.filter (matchesBoth d t) db).length = 1) ∧
    (2 ≤ (List.filter (matchesBoth d t) db).length →
      authenticateDevice (some d) (some t) (authQuery db d t) = some 403 ∧
      ∃ r, r ∈ db ∧ r.device_id = d ∧ r.token = t) := by
  unfold authQuery
  cases hrows : List.filter (matchesBoth d t) db with
  | nil =>
      rw [show singleOf [] = ⟨none, some ⟨"PGRST116"⟩⟩ from rfl]
      rw [auth_err_403 d t hd ht _ _]
      constructor
      · simp
      · intro h2; simp at h2
  | cons a rest =>
      cases rest with
      | nil =>
          rw [show singleOf [a] = ⟨some a, none⟩ from rfl]
          rw [auth_found_next d t hd ht a]
          constructor
          · simp
          · intro h2; simp at h2
      | cons b rest2 =>
          rw [show singleOf (a :: b :: rest2) = ⟨none, some ⟨"PGRST116"⟩⟩ from rfl]
          rw [auth_err_403 d t hd ht _ _]
          constructor
          · simp
          · intro _
            refine ⟨rfl, a, ?_⟩
            have ha : a ∈ List.filter (matchesBoth d t) db := by
              rw [hrows]; exact List.mem_cons_self a (b :: rest2)
            rw [List.mem_filter] at ha
            refine ⟨ha.1, ?_⟩
            simpa [matchesBoth] using ha.2

theorem auth_unique_match_witness :
    authenticateDevice (some "a") (some "b")
      (authQuery [⟨"a", "b"⟩, ⟨"a", "b"⟩] "a" "b") = some 403 ∧
    ∃ r, r ∈ ([⟨"a", "b"⟩, ⟨"a", "b"⟩] : Datastore) ∧
      r.device_id = "a" ∧ r.token = "b" := by
  have h := (auth_unique_match [⟨"a", "b"⟩, ⟨"a", "b"⟩] "a" "b"
    (by decide) (by decide)).2 (by decide)
  exact h

lemma isFalsyStr_iff (o : Option String) :
    isFalsyStr o = true ↔ (o = none ∨ o = some "") := by
  match o with
  | none => simp [isFalsyStr]
  | some s => simp [isFalsyStr]

lemma auth_eq_401_iff (device token : Option String) (q : SingleQueryOutcome) :
    authenticateDevice device token q = some 401 ↔
      (isFalsyStr device || isFalsyStr token) = true := by
  unfold authenticateDevice
  by_cases h : (isFalsyStr device || isFalsyStr token) = true
  · simp [h]
  · simp only [h, Bool.false_eq_true, if_false, iff_false]
    split <;> simp

lemma auth_eq_403_iff (device token : Option String) (q : SingleQueryOutcome)
    (hd : isFalsyStr device = false) (ht : isFalsyStr token = false) :
    authenticateDevice device token q = some 403 ↔
      (q.error.isSome || q.data.isNone) = true := by
  unfold authenticateDevice
  rw [hd, ht]
  by_cases h : (q.error.isSome || q.data.isNone) = true
  · simp [h]
  · simp [h]

lemma auth_eq_none_iff (device token : Option String) (q : SingleQueryOutcome)
    (hd : isFalsyStr device = false) (ht : isFalsyStr token = false) :
    authenticateDevice device token q = none ↔
      (q.error.isSome || q.data.isNone) = false := by
  unfold authenticateDevice
  rw [hd, ht]
  by_cases h : (q.error.isSome || q.data.isNone) = true
  · simp [h]
  · simp [h]

/-- Claim C2 (amended): the middleware answers 401 exactly when the
device header or the token header is missing OR PRESENT BUT EMPTY (the
source tests JavaScript falsiness, not presence); with both headers
nonempty it answers 403 exactly when the lookup returns an error or no
row, and proceeds exactly when the lookup returns a row without error;
the lookup row, when present, matches both columns by equality. -/
theorem authenticateDevice_spec (device token : Option String) (q : SingleQueryOutcome) :
    (authenticateDevice device token q = some 401 ↔
      (device = none ∨ device = some "" ∨ token = none ∨ token = some "")) ∧
    (isFalsyStr device = false → isFalsyStr token = false →
      ((authenticateDevice device token q = some 403 ↔
        (q.error ≠ none ∨ q.data = none)) ∧
       (authenticateDevice device token q = none ↔
        (q.error = none ∧ q.data ≠ none)))) ∧
    (∀ (db : Datastore) (d t : String) (r : DeviceRecord),
      (authQuery db d t).data = some r → r ∈ db ∧ r.device_id = d ∧ r.token = t) := by
  refine ⟨?_, fun hd ht => ⟨?_, ?_⟩, ?_⟩
  · rw [auth_eq_401_iff, Bool.or_eq_true, isFalsyStr_iff, isFalsyStr_iff]
    tauto
  · rw [auth_eq_403_iff device token q hd ht, Bool.or_eq_true]
    cases hqe : q.error <;> cases hqd : q.data <;> simp
  · rw [auth_eq_none_iff device token q hd ht, Bool.or_eq_false_iff]
    cases hqe : q.error <;> cases hqd : q.data <;> simp
  · intro db d t r hr
    have heq : List.filter (matchesBoth d t) db = [r] := singleOf_data_some _ r hr
    have hmem : r ∈ List.filter (matchesBoth d t) db := by
      rw [heq]; exact List.mem_singleton.mpr rfl
    rw [List.mem_filter] at hmem
    refine ⟨hmem.1, ?_⟩
    simpa [matchesBoth] using hmem.2

theorem authenticateDevice_spec_witness :
    authenticateDevice (some "dev") (some "tok")
      (SingleQueryOutcome.mk none (some (QueryError.mk "boom"))) = some 403 := by
  have h := ((authenticateDevice_spec (some "dev") (some "tok")
    ⟨none, some ⟨"boom"⟩⟩).2.1 rfl rfl).1
  exact h.mpr (Or.inl (by simp))

/-- Claim C2 as stated is false: a request whose device header is
present but holds the empty string is rejected with 401 although
neither header is missing. -/
theorem auth_401_not_iff_missing :
    ¬ (∀ (device token : Option String) (q : SingleQueryOutcome),
        authenticateDevice device token q = some 401 ↔
          (device = none ∨ token = none)) := by
  intro hclaim
  have h := (hclaim (some "") (some "x") ⟨none, none⟩).mp (by decide)
  rcases h with h | h <;> simp at h

lemma registerDevice_201_inv (db : Datastore) (deviceId : Option String)
    (fetch : SingleQueryOutcome) (tok : String) (insErr : Option QueryError)
    (h : (registerDevice db deviceId fetch tok insErr).status = 201) :
    registerDevice db deviceId fetch tok insErr
      = ⟨201, some tok, db ++ [⟨deviceId.getD "", tok⟩]⟩ := by
  by_cases h1 : isFalsyStr deviceId = true
  · simp [registerDevice, h1] at h
  · by_cases h2 : fetchBlocks fetch = true
    · simp [registerDevice, h1, h2] at h
    · by_cases h3 : fetch.data.isSome = true
      · simp [registerDevice, h1, h2, h3] at h
      · match hins : insErr with
        | some e => simp [registerDevice, h1, h2, h3, hins] at h
        | none => simp [registerDevice, h1, h2, h3]

/-- Claim C3: every token issued by a registration that answers 201 is
the lowercase hex encoding of the 16 random bytes: a string of exactly
32 lowercase hexadecimal characters. -/
theorem register_token_hex32 (db : Datastore) (deviceId : Option String)
    (fetch : SingleQueryOutcome) (bytes : List Nat) (insErr : Option QueryError)
    (hlen : bytes.length = 16) (hb : ∀ b ∈ bytes, b < 256)
    (h201 : (registerDevice db deviceId fetch (generateToken bytes) insErr).status = 201) :
    ∃ s, (registerDevice db deviceId fetch (generateToken bytes) insErr).token = some s ∧
      s.length = 32 ∧ ∀ c ∈ s.data, isLowerHexChar c = true := by
  refine ⟨generateToken bytes, ?_, ?_, generateToken_chars bytes hb⟩
  · rw [registerDevice_201_inv db deviceId fetch (generateToken bytes) insErr h201]
  · rw [generateToken_length, hlen]

theorem register_token_hex32_witness :
    ∃ s, (registerDevice [] (some "sensor-1") (SingleQueryOutcome.mk none none)
        (generateToken (List.replicate 16 0)) none).token = some s ∧
      s.length = 32 ∧ ∀ c ∈ s.data, isLowerHexChar c = true := by
  exact register_token_hex32 [] (some "sensor-1") ⟨none, none⟩ (List.replicate 16 0) none
    (by decide) (by decide) (by decide)

lemma fetchBlocks_false_of_realistic (fetch : SingleQueryOutcome)
    (h : ∀ e, fetch.error = some e → e.code = "PGRST116") : fetchBlocks fetch = false := by
  unfold fetchBlocks
  match he : fetch.error with
  | none => rfl
  | some e => simp [h e he]

lemma fetchBlocks_eq_true_iff (fetch : SingleQueryOutcome) :
    fetchBlocks fetch = true ↔ ∃ e, fetch.error = some e ∧ e.code ≠ "PGRST116" := by
  unfold fetchBlocks
  match he : fetch.error with
  | none => simp
  | some e => simp [bne_iff_ne]

lemma registerFetchQuery_found (db : Datastore) (hgood : GoodStore db) (d t : String)
    (hmem : DeviceRecord.mk d t ∈ db) :
    registerFetchQuery db d = ⟨some ⟨d, t⟩, none⟩ := by
  have hmemf : DeviceRecord.mk d t ∈ List.filter (fun r => r.device_id == d) db := by
    rw [List.mem_filter]; exact ⟨hmem, by simp⟩
  have hle : (List.filter (fun r => r.device_id == d) db).length ≤ 1 :=
    length_filter_id_le_one db _ d hgood.2 (fun r hr => by simpa using hr)
  have heq := eq_singleton_of_mem_le_one _ _ hmemf hle
  unfold registerFetchQuery
  rw [heq]
  rfl

/-- Claim C4: a registration whose existence check finds a row answers
400 with no token issued and the table unchanged; in particular, in a
datastore produced by registrations, registering an already registered
identifier again answers 400. -/
theorem register_conflict_400 (db : Datastore) (d : String) (tok : String)
    (insErr : Option QueryError) :
    (∀ fetch : SingleQueryOutcome, d ≠ "" →
      (∀ e, fetch.error = some e → e.code = "PGRST116") →
      ∀ r, fetch.data = some r →
        registerDevice db (some d) fetch tok insErr = ⟨400, none, db⟩) ∧
    (Reachable db → ∀ t, DeviceRecord.mk d t ∈ db →
      registerDevice db (some d) (registerFetchQuery db d) tok insErr = ⟨400, none, db⟩) := by
  have hstep : ∀ fetch : SingleQueryOutcome, d ≠ "" →
      fetchBlocks fetch = false → fetch.data.isSome = true →
      registerDevice db (some d) fetch tok insErr = ⟨400, none, db⟩ := by
    intro fetch hd hblk hsome
    have hfal : isFalsyStr (some d) = false := by simp [isFalsyStr, hd]
    simp [registerDevice, hfal, hblk, hsome]
  constructor
  · intro fetch hd hreal r hr
    exact hstep fetch hd (fetchBlocks_false_of_realistic fetch hreal) (by simp [hr])
  · intro hreach t hmem
    have hgood := reachable_goodStore db hreach
    have hd : d ≠ "" := (hgood.1 _ hmem).1
    have hq := registerFetchQuery_found db hgood d t hmem
    refine hstep _ hd ?_ ?_
    · rw [hq]; rfl
    · rw [hq]; rfl

theorem register_conflict_400_witness :
    registerDevice db1 (some "sensor-1") (registerFetchQuery db1 "sensor-1") "t2" none
      = ⟨400, none, db1⟩ := by
  exact (register_conflict_400 db1 "sensor-1" "t2" none).2 reachable_db1 tok0
    (List.mem_singleton.mpr rfl)

/-- Claim C5: with a nonempty identifier supplied, registration answers
500 exactly when the existence check fails with an error other than the
not-found code PGRST116, or when the check passes finding no row and the
insert fails; a not-found outcome with a successful insert proceeds to
the insert and answers 201 with the new row appended. -/
theorem register_500_characterization (db : Datastore) (d : String)
    (fetch : SingleQueryOutcome) (tok : String) (insErr : Option QueryError)
    (hd : d ≠ "") :
    ((registerDevice db (some d) fetch tok insErr).status = 500 ↔
      ((∃ e, fetch.error = some e ∧ e.code ≠ "PGRST116") ∨
       ((∀ e, fetch.error = some e → e.code = "PGRST116") ∧ fetch.data = none ∧
        insErr ≠ none))) ∧
    (fetch = ⟨none, some ⟨"PGRST116"⟩⟩ → insErr = none →
      registerDevice db (some d) fetch tok insErr = ⟨201, some tok, db ++ [⟨d, tok⟩]⟩) := by
  have hfal : isFalsyStr (some d) = false := by simp [isFalsyStr, hd]
  constructor
  · by_cases hblk : fetchBlocks fetch = true
    · simp only [registerDevice, hfal, hblk, Bool.false_eq_true, if_false, if_true]
      constructor
      · intro _
        exact Or.inl ((fetchBlocks_eq_true_iff fetch).mp hblk)
      · intro _
        trivial
    · rw [Bool.not_eq_true] at hblk
      have hreal : ∀ e, fetch.error = some e → e.code = "PGRST116" := by
        intro e he
        by_contra hne
        rw [(fetchBlocks_eq_true_iff fetch).mpr ⟨e, he, hne⟩] at hblk
        exact Bool.noConfusion hblk
      have hnoblk : ¬ (∃ e, fetch.error = some e ∧ e.code ≠ "PGRST116") := by
        rintro ⟨e, he, hne⟩
        exact hne (hreal e he)
      by_cases hdata : fetch.data.isSome = true
      · have hnodata : ¬ fetch.data = none := by
          intro h; rw [h] at hdata; exact Bool.noConfusion hdata
        simp only [registerDevice, hfal, hblk, hdata, Bool.false_eq_true, if_false, if_true]
        constructor
        · intro h; exact absurd h (by decide)
        · rintro (h | ⟨_, h, _⟩)
          · exact absurd h hnoblk
          · exact absurd h hnodata
      · have hnone : fetch.data = none := by
          cases hfd : fetch.data with
          | none => rfl
          | some r => rw [hfd] at hdata; exact absurd rfl hdata
        match hins : insErr with
        | some e =>
            simp only [registerDevice, hfal, hblk, hdata, Bool.false_eq_true, if_false]
            constructor
            · intro _
              exact Or.inr ⟨hreal, hnone, by simp⟩
            · intro _
              trivial
        | none =>
            simp only [registerDevice, hfal, hblk, hdata, Bool.false_eq_true, if_false]
            constructor
            · intro h; exact absurd h (by decide)
            · rintro (h | ⟨_, _, h⟩)
              · exact absurd h hnoblk
              · exact absurd rfl h
  · rintro rfl rfl
    simp [registerDevice, hfal, fetchBlocks]

theorem register_500_characterization_witness :
    (registerDevice [] (some "dev") (SingleQueryOutcome.mk none (some (QueryError.mk "boom")))
      "t" none).status = 500 ∧
    registerDevice [] (some "dev") (SingleQueryOutcome.mk none (some (QueryError.mk "PGRST116")))
      "t" none = ⟨201, some "t", [⟨"dev", "t"⟩]⟩ := by
  constructor
  · exact (register_500_characterization [] "dev" ⟨none, some ⟨"boom"⟩⟩ "t" none
      (by decide)).1.mpr (Or.inl ⟨⟨"boom"⟩, rfl, by decide⟩)
  · exact (register_500_characterization [] "dev" ⟨none, some ⟨"PGRST116"⟩⟩ "t" none
      (by decide)).2 rfl rfl

/-- Claim C6: on an upload request that passes authentication, the
handler answers 400 when the data field of the body is absent or falsy,
and 200 when it is present and truthy. -/
theorem upload_validation (db : Datastore) (device token : Option String) (data : JsValue)
    (hauth : authenticateDevice device token
      (authQuery db (device.getD "") (token.getD "")) = none) :
    (JsValue.falsy data = true → (uploadDataRoute db device token data).1 = 400) ∧
    (JsValue.falsy data = false → (uploadDataRoute db device token data).1 = 200) := by
  unfold uploadDataRoute
  rw [hauth]
  constructor
  · intro h
    simp [uploadDataHandler, h]
  · intro h
    simp [uploadDataHandler, h]

theorem upload_validation_witness :
    (uploadDataRoute [⟨"a", "b"⟩] (some "a") (some "b") JsValue.null).1 = 400 ∧
    (uploadDataRoute [⟨"a", "b"⟩] (some "a") (some "b") (JsValue.str "x")).1 = 200 := by
  constructor
  · exact (upload_validation [⟨"a", "b"⟩] (some "a") (some "b") JsValue.null (by decide)).1 rfl
  · exact (upload_validation [⟨"a", "b"⟩] (some "a") (some "b") (JsValue.str "x") (by decide)).2 rfl

/-- Claim C7: the upload route never writes to the datastore: whatever
the headers, the body and the table contents, the table after the
request is the table before it. -/
theorem upload_no_datastore_write (db : Datastore) (device token : Option String)
    (data : JsValue) :
    (uploadDataRoute db device token data).2 = db := by
  unfold uploadDataRoute
  split <;> rfl

lemma filter_id_eq_nil_of_forall_ne (db : Datastore) (d : String)
    (h : ∀ r ∈ db, r.device_id ≠ d) :
    List.filter (fun r => r.device_id == d) db = [] := by
  rw [List.filter_eq_nil_iff]
  intro r hr
  simp [h r hr]

lemma registerFetchQuery_not_found (db : Datastore) (d : String)
    (h : ∀ r ∈ db, r.device_id ≠ d) :
    registerFetchQuery db d = ⟨none, some ⟨"PGRST116"⟩⟩ := by
  unfold registerFetchQuery
  rw [filter_id_eq_nil_of_forall_ne db d h]
  rfl

lemma runRegistrations_append (reqs : List (String × String)) : ∀ db : Datastore,
    (∀ p ∈ reqs, p.1 ≠ "" ∧ ∀ r ∈ db, r.device_id ≠ p.1) →
    List.Pairwise (fun p q => p.1 ≠ q.1) reqs →
    runRegistrations db reqs = db ++ reqs.map (fun p => DeviceRecord.mk p.1 p.2) := by
  induction reqs with
  | nil =>
      intro db _ _
      simp [runRegistrations]
  | cons p rest ih =>
      obtain ⟨d, t⟩ := p
      intro db hids hdist
      obtain ⟨hp1, hp2⟩ := hids (d, t) (List.mem_cons_self _ rest)
      rcases List.pairwise_cons.mp hdist with ⟨hphead, hprest⟩
      have hreg : (registerDevice db (some d) (registerFetchQuery db d) t none).db
          = db ++ [⟨d, t⟩] := by
        rw [registerFetchQuery_not_found db d hp2]
        have hfal : isFalsyStr (some d) = false := by simp [isFalsyStr, hp1]
        simp [registerDevice, hfal, fetchBlocks]
      have hrest2 : ∀ p ∈ rest, p.1 ≠ "" ∧
          ∀ r ∈ db ++ [DeviceRecord.mk d t], r.device_id ≠ p.1 := by
        intro q hq
        refine ⟨(hids q (List.mem_cons_of_mem _ hq)).1, ?_⟩
        intro r hr
        rcases List.mem_append.mp hr with hr2 | hr2
        · exact (hids q (List.mem_cons_of_mem _ hq)).2 r hr2
        · rcases List.mem_singleton.mp hr2 with rfl
          exact hphead q hq
      simp only [runRegistrations]
      rw [hreg, ih (db ++ [DeviceRecord.mk d t]) hrest2 hprest]
      simp

/-- Claim C8: list-devices needs no credentials and returns the table
verbatim, tokens included: 500 on a failed query, 200 with the empty
list on an empty table, and after N successful registrations 200 with
N rows, each holding the identifier and the token issued for it. -/
theorem listDevices_spec (db : Datastore) (e : QueryError)
    (reqs : List (String × String))
    (hne : ∀ p ∈ reqs, p.1 ≠ "")
    (hdist : List.Pairwise (fun p q => p.1 ≠ q.1) reqs) :
    listDevices db (some e) = ⟨500, none⟩ ∧
    listDevices [] none = ⟨200, some []⟩ ∧
    listDevices (runRegistrations [] reqs) none = ⟨200, some (runRegistrations [] reqs)⟩ ∧
    (runRegistrations [] reqs).length = reqs.length ∧
    ∀ p ∈ reqs, DeviceRecord.mk p.1 p.2 ∈ runRegistrations [] reqs := by
  have hrun : runRegistrations [] reqs = reqs.map (fun p => DeviceRecord.mk p.1 p.2) := by
    rw [runRegistrations_append reqs [] (fun p hp => ⟨hne p hp, by simp⟩) hdist]
    simp
  refine ⟨rfl, rfl, rfl, ?_, ?_⟩
  · rw [hrun, List.length_map]
  · intro p hp
    rw [hrun]
    exact List.mem_map.mpr ⟨p, hp, rfl⟩

theorem listDevices_spec_witness :
    listDevices [⟨"x", "y"⟩] (some (QueryError.mk "boom")) = ⟨500, none⟩ ∧
    listDevices [] none = ⟨200, some []⟩ ∧
    listDevices (runRegistrations [] [("a", "t1"), ("b", "t2")]) none
      = ⟨200, some (runRegistrations [] [("a", "t1"), ("b", "t2")])⟩ ∧
    (runRegistrations [] [("a", "t1"), ("b", "t2")]).length = 2 ∧
    ∀ p ∈ [("a", "t1"), ("b", "t2")],
      DeviceRecord.mk p.1 p.2 ∈ runRegistrations [] [("a", "t1"), ("b", "t2")] := by
  have h := listDevices_spec [⟨"x", "y"⟩] ⟨"boom"⟩ [("a", "t1"), ("b", "t2")]
    (by decide) (by decide)
  exact ⟨h.1, h.2.1, h.2.2.1, h.2.2.2.1, h.2.2.2.2⟩

/-- Claim C9: registration is atomic on failure: whenever the handler
answers anything other than 201 — missing identifier, conflict,
existence-check failure or insert failure — the table is unchanged. -/
theorem register_atomic_on_failure (db : Datastore) (deviceId : Option String)
    (fetch : SingleQueryOutcome) (tok : String) (insErr : Option QueryError)
    (h : (registerDevice db deviceId fetch tok insErr).status ≠ 201) :
    (registerDevice db deviceId fetch tok insErr).db = db := by
  rcases registerDevice_db_cases db deviceId fetch tok insErr with hc | ⟨h1, h2, h3, h4, _⟩
  · exact hc
  · exfalso
    apply h
    simp [registerDevice, h1, h2, h3, h4]

theorem register_atomic_on_failure_witness :
    (registerDevice [] none (SingleQueryOutcome.mk none none) "t" none).db = [] := by
  exact register_atomic_on_failure [] none ⟨none, none⟩ "t" none (by decide)

